import Mathlib

/-!
Shallow embedding of the VirtuaPlant core (iotrustlab/virtuaplant).

Sources embedded:
- src/sim/common/physics.py   (BottleFillingPhysics, OilRefineryPhysics)
- src/sim/common/modbus_bridge.py (ModbusBridge)
- src/tools/validate_map.py   (validate_modbus_map)

Python floats are modelled as exact rationals (ℚ); register cells and
addresses as ℤ.  Fallible Python code (raised exceptions, sys.exit) is
modelled with Except.
-/

namespace VirtuaPlant

/-! Bottle filling physics, from BottleFillingPhysics in physics.py.
The per-instance constants set in the constructor are never mutated, so
they are plain definitions here. -/

def k_pump : ℚ := 1/10
def k_drain : ℚ := 1/20
def leak_rate : ℚ := 1/1000

/-- Actuator/sensor inputs read by BottleFillingPhysics.update via
inputs.get(..., False).  limit_switch and level_sensor are read by the
Python code but never used. -/
structure BottleInputs where
  motor_on : Bool
  nozzle_open : Bool
  limit_switch : Bool
  level_sensor : Bool
deriving DecidableEq, Repr

/-- State of a BottleFillingPhysics instance (including the embedded
PhysicsState time/dt fields). -/
structure BottleState where
  time : ℚ
  dt : ℚ
  bottle_level : ℚ
  bottle_position : ℚ
  water_flow : ℚ
  bottle_in_position : Bool
  bottle_filled : Bool
deriving DecidableEq, Repr

/-- Initial state from BottleFillingPhysics constructor. -/
def bottleInit : BottleState :=
  { time := 0, dt := 1/50, bottle_level := 0, bottle_position := 0,
    water_flow := 0, bottle_in_position := false, bottle_filled := false }

/-- BottleFillingPhysics.update(dt, inputs), one timestep.  The level
branch reads bottle_in_position as left by the previous tick, exactly
as the Python attribute read does. -/
def bottleUpdate (s : BottleState) (dt : ℚ) (i : BottleInputs) : BottleState :=
  let s1 : BottleState := { s with dt := dt, time := s.time + dt }
  let s2 : BottleState :=
    if i.motor_on then
      { s1 with bottle_position := s1.bottle_position + (1/4) * dt }
    else s1
  let s3 : BottleState :=
    if i.nozzle_open && s2.bottle_in_position then
      { s2 with bottle_level := s2.bottle_level + k_pump * dt, water_flow := k_pump }
    else
      let s2a : BottleState :=
        if s2.bottle_level > 0 then
          { s2 with bottle_level := max 0 (s2.bottle_level - k_drain * dt - leak_rate * dt) }
        else s2
      { s2a with water_flow := 0 }
  let s4 : BottleState :=
    { s3 with
      bottle_in_position := decide (130 ≤ s3.bottle_position ∧ s3.bottle_position ≤ 200),
      bottle_filled := decide (s3.bottle_level ≥ 8/10) }
  if s4.bottle_position > 600 then
    { s4 with bottle_position := 130, bottle_level := 0 }
  else s4

/-- Iterated bottle ticks, one (dt, inputs) pair per call to update. -/
def runBottle (s : BottleState) (steps : List (ℚ × BottleInputs)) : BottleState :=
  steps.foldl (fun st p => bottleUpdate st p.1 p.2) s

/-! Oil refinery physics, from OilRefineryPhysics in physics.py. -/

def k_feed : ℚ := 1/5
def k_relief : ℚ := 3/20
def k_processing : ℚ := 1/10
def tank_capacity : ℚ := 100

/-- Actuator inputs read by OilRefineryPhysics.update. -/
structure RefInputs where
  feed_pump_on : Bool
  outlet_valve_open : Bool
  sep_valve_open : Bool
  waste_valve_open : Bool
deriving DecidableEq, Repr

/-- State of an OilRefineryPhysics instance. -/
structure RefState where
  time : ℚ
  dt : ℚ
  tank_level : ℚ
  oil_spilled : ℚ
  oil_processed : ℚ
  processing_phase : ℕ
deriving DecidableEq, Repr

/-- Initial state from OilRefineryPhysics constructor: level 20,
phase 0 (idle). -/
def refineryInit : RefState :=
  { time := 0, dt := 1/50, tank_level := 20, oil_spilled := 0,
    oil_processed := 0, processing_phase := 0 }

/-- Feed-pump block of OilRefineryPhysics.update: add k_feed*dt and clamp
to capacity with min. -/
def refineryFeed (s : RefState) (dt : ℚ) (i : RefInputs) : RefState :=
  if i.feed_pump_on then
    { s with tank_level := min tank_capacity (s.tank_level + k_feed * dt) }
  else s

/-- Processing-phase dispatch block of OilRefineryPhysics.update. -/
def refineryPhase (s : RefState) (dt : ℚ) (i : RefInputs) : RefState :=
  if s.processing_phase = 1 then
    if s.tank_level ≥ 80 then { s with processing_phase := 2 } else s
  else if s.processing_phase = 2 then
    if i.outlet_valve_open && i.sep_valve_open then
      let process_rate : ℚ := min (k_processing * dt) s.tank_level
      { s with tank_level := s.tank_level - process_rate,
               oil_processed := s.oil_processed + process_rate }
    else s
  else if s.processing_phase = 3 then
    if i.waste_valve_open then
      let s2 : RefState := { s with tank_level := max 0 (s.tank_level - k_relief * dt) }
      if s2.tank_level ≤ 20 then { s2 with processing_phase := 0 } else s2
    else s
  else s

/-- Spill-check block of OilRefineryPhysics.update, performed last. -/
def refinerySpill (s : RefState) : RefState :=
  if s.tank_level > tank_capacity then
    { s with oil_spilled := s.oil_spilled + (s.tank_level - tank_capacity),
             tank_level := tank_capacity }
  else s

/-- OilRefineryPhysics.update(dt, inputs): time bookkeeping, feed, phase
dispatch, then the spill check. -/
def refineryUpdate (s : RefState) (dt : ℚ) (i : RefInputs) : RefState :=
  refinerySpill (refineryPhase (refineryFeed { s with dt := dt, time := s.time + dt } dt i) dt i)

/-- Iterated refinery ticks. -/
def runRefinery (s : RefState) (steps : List (ℚ × RefInputs)) : RefState :=
  steps.foldl (fun st p => refineryUpdate st p.1 p.2) s

theorem refineryFeed_fields (s : RefState) (dt : ℚ) (i : RefInputs) :
    (refineryFeed s dt i).processing_phase = s.processing_phase ∧
    (refineryFeed s dt i).oil_processed = s.oil_processed ∧
    (refineryFeed s dt i).oil_spilled = s.oil_spilled := by
  unfold refineryFeed
  split <;> exact ⟨rfl, rfl, rfl⟩

theorem refinerySpill_fields (s : RefState) :
    (refinerySpill s).processing_phase = s.processing_phase ∧
    (refinerySpill s).oil_processed = s.oil_processed := by
  unfold refinerySpill
  split <;> exact ⟨rfl, rfl⟩

theorem refineryPhase_idle (s : RefState) (dt : ℚ) (i : RefInputs)
    (h : s.processing_phase = 0) : refineryPhase s dt i = s := by
  unfold refineryPhase
  rw [h]
  norm_num

/-- One tick from an idle state stays idle and processes nothing. -/
theorem refineryUpdate_idle (s : RefState) (dt : ℚ) (i : RefInputs)
    (h : s.processing_phase = 0) :
    (refineryUpdate s dt i).processing_phase = 0 ∧
    (refineryUpdate s dt i).oil_processed = s.oil_processed := by
  unfold refineryUpdate
  have hf := refineryFeed_fields { s with dt := dt, time := s.time + dt } dt i
  have hp : refineryPhase (refineryFeed { s with dt := dt, time := s.time + dt } dt i) dt i
      = refineryFeed { s with dt := dt, time := s.time + dt } dt i :=
    refineryPhase_idle _ dt i (by rw [hf.1]; exact h)
  rw [hp]
  have hs := refinerySpill_fields (refineryFeed { s with dt := dt, time := s.time + dt } dt i)
  exact ⟨by rw [hs.1, hf.1]; exact h, by rw [hs.2, hf.2.1]⟩

/-- C2: the refinery engine starts with processing_phase = 0 and no branch
of OilRefineryPhysics.update leaves phase 0, so for every dt and input
sequence the phase stays 0 and oil_processed stays 0 forever. -/
theorem refinery_idle_forever (steps : List (ℚ × RefInputs)) :
    (runRefinery refineryInit steps).processing_phase = 0 ∧
    (runRefinery refineryInit steps).oil_processed = 0 := by
  have key : ∀ (l : List (ℚ × RefInputs)) (s : RefState), s.processing_phase = 0 →
      (runRefinery s l).processing_phase = 0 ∧
      (runRefinery s l).oil_processed = s.oil_processed := by
    intro l
    induction l with
    | nil => intro s h; exact ⟨h, rfl⟩
    | cons p rest ih =>
      intro s h
      have hstep := refineryUpdate_idle s p.1 p.2 h
      have hrest := ih (refineryUpdate s p.1 p.2) hstep.1
      refine ⟨by simpa [runRefinery] using hrest.1, ?_⟩
      have h2 : (runRefinery s (p :: rest)).oil_processed
          = (runRefinery (refineryUpdate s p.1 p.2) rest).oil_processed := by
        simp [runRefinery]
      rw [h2, hrest.2, hstep.2]
  have h := key steps refineryInit rfl
  exact ⟨h.1, by rw [h.2]; rfl⟩

/-- The concrete inputs of the refinery overflow scenario: only the feed
pump is on. -/
def feedOnly : RefInputs :=
  { feed_pump_on := true, outlet_valve_open := false, sep_valve_open := false,
    waste_valve_open := false }

/-- The refinery overflow scenario start state: tank at 95 of 100. -/
def refC1Start : RefState := { refineryInit with tank_level := 95 }

/-- C1: evaluating OilRefineryPhysics.update at tank_level = 95 with
dt = 30 (so k_feed * dt = 6 > 5) and the feed pump on.  The feed block
clamps tank_level to capacity with min before the spill check runs, so
the tick ends with oil_spilled = 0, not the spilled > 0 the spec
requires for this scenario. -/
theorem refinery_overflow_tick_no_spill :
    k_feed * 30 > 5 ∧
    (refineryUpdate refC1Start 30 feedOnly).tank_level = 100 ∧
    (refineryUpdate refC1Start 30 feedOnly).oil_spilled = 0 := by
  have hfeed : refineryFeed { refC1Start with dt := 30, time := refC1Start.time + 30 } 30 feedOnly
      = { refineryInit with tank_level := 100, dt := 30, time := 0 + 30 } := by
    simp [refineryFeed, feedOnly, refC1Start, refineryInit, k_feed, tank_capacity]
    norm_num [min_def]
  refine ⟨by norm_num [k_feed], ?_, ?_⟩ <;>
  · unfold refineryUpdate
    rw [hfeed, refineryPhase_idle _ _ _ (by rfl)]
    simp [refinerySpill, refineryInit, tank_capacity]

/-- The concrete inputs of the bottle determinism scenario: motor on,
nozzle off. -/
def motorOnly : BottleInputs :=
  { motor_on := true, nozzle_open := false, limit_switch := false, level_sensor := false }

/-- One bottle tick with motor on, nozzle off, level 0: the position
advances by motor speed times dt and the level stays 0 (the decay branch
does not fire at level 0), provided the new position does not cross the
600 reset threshold. -/
theorem bottleUpdate_motorOnly (s : BottleState) (dt : ℚ)
    (hlvl : s.bottle_level = 0)
    (hpos : s.bottle_position + (1/4) * dt ≤ 600) :
    (bottleUpdate s dt motorOnly).bottle_position = s.bottle_position + (1/4) * dt ∧
    (bottleUpdate s dt motorOnly).bottle_level = 0 := by
  have hnl : ¬ ((0 : ℚ) > 0) := by norm_num
  simp only [bottleUpdate, motorOnly, hlvl, hnl]
  simp [hlvl]
  rw [if_neg (by push_neg; linarith)]
  exact ⟨rfl, rfl⟩

/-- Iterating motor-on nozzle-off ticks: position grows linearly, level
stays 0, as long as the final position stays at or below 600. -/
theorem runBottle_motorOnly (n : ℕ) (s : BottleState) (dt : ℚ) (hdt : 0 ≤ dt)
    (hlvl : s.bottle_level = 0)
    (hpos : s.bottle_position + n * ((1/4) * dt) ≤ 600) :
    (runBottle s (List.replicate n (dt, motorOnly))).bottle_position
      = s.bottle_position + n * ((1/4) * dt) ∧
    (runBottle s (List.replicate n (dt, motorOnly))).bottle_level = 0 := by
  induction n generalizing s with
  | zero => refine ⟨?_, hlvl⟩; simp [runBottle]
  | succ k ih =>
    have hx : (0:ℚ) ≤ (1/4) * dt := by positivity
    have hk : (0:ℚ) ≤ k * ((1/4) * dt) := by positivity
    have hcast : ((k : ℚ) + 1) * ((1/4) * dt) = (1/4) * dt + k * ((1/4) * dt) := by ring
    have hpos1 : s.bottle_position + (1/4) * dt ≤ 600 := by
      push_cast at hpos
      nlinarith
    have hstep := bottleUpdate_motorOnly s dt hlvl hpos1
    have hrun : runBottle s (List.replicate (k+1) (dt, motorOnly))
        = runBottle (bottleUpdate s dt motorOnly) (List.replicate k (dt, motorOnly)) := by
      simp [runBottle, List.replicate_succ]
    have hposk : (bottleUpdate s dt motorOnly).bottle_position + k * ((1/4) * dt) ≤ 600 := by
      rw [hstep.1]
      push_cast at hpos
      nlinarith
    have hrest := ih (bottleUpdate s dt motorOnly) hstep.2 hposk
    rw [hrun]
    refine ⟨?_, hrest.2⟩
    rw [hrest.1, hstep.1]
    push_cast
    ring

/-- The bottle determinism scenario start state: position 130, level 0. -/
def bottleC3Start : BottleState := { bottleInit with bottle_position := 130 }

/-- C3 counterexample: after 10 ticks of dt = 1/50 with the motor on and
the nozzle off from position = 130, the position is 2601/20 = 130.05,
not the 130.5 = 261/2 the claim states (130.05 differs from 130.5 by far
more than rounding). -/
theorem bottle_ten_ticks_position_ne :
    (runBottle bottleC3Start (List.replicate 10 ((1/50 : ℚ), motorOnly))).bottle_position
      = 2601/20 ∧
    ¬ ((runBottle bottleC3Start (List.replicate 10 ((1/50 : ℚ), motorOnly))).bottle_position
      = 261/2) := by
  have h := runBottle_motorOnly 10 bottleC3Start (1/50) (by norm_num) rfl
    (by norm_num [bottleC3Start, bottleInit])
  rw [h.1]
  norm_num [bottleC3Start, bottleInit]

/-- C3 amended: after 10 ticks of dt = 1/50 with motor on and nozzle off
from position = 130, position = 130 + 10 * (1/4) * (1/50) = 130.05 and
the level stays 0 (decay branch inactive at level 0). -/
theorem bottle_ten_ticks_exact :
    (runBottle bottleC3Start (List.replicate 10 ((1/50 : ℚ), motorOnly))).bottle_position
      = 130 + 10 * (1/4) * (1/50) ∧
    (runBottle bottleC3Start (List.replicate 10 ((1/50 : ℚ), motorOnly))).bottle_level = 0 := by
  have h := runBottle_motorOnly 10 bottleC3Start (1/50) (by norm_num) rfl
    (by norm_num [bottleC3Start, bottleInit])
  refine ⟨?_, h.2⟩
  rw [h.1]
  norm_num [bottleC3Start, bottleInit]

/-! Modbus bridge, from src/sim/common/modbus_bridge.py.  CSV rows are
modelled as records of the eight column strings; the pymodbus data
blocks (external library, out of the spec's core) are modelled as the
table/address-addressable register maps the bridge uses them as.
String scanning helpers are re-implemented structurally over the
character list so that they evaluate inside the kernel. -/

/-- Python str.startswith, over the character lists. -/
def strStartsWith (s pat : String) : Bool :=
  pat.toList.isPrefixOf s.toList

/-- Python str.endswith, over the character lists. -/
def strEndsWith (s pat : String) : Bool :=
  pat.toList.isSuffixOf s.toList

/-- Python s[:-n], over the character lists. -/
def strDropRight (s : String) (n : ℕ) : String :=
  String.mk (s.toList.take (s.toList.length - n))

/-- Decimal digit accumulator for pyToInt?. -/
def digitsToNat? : List Char → ℕ → Option ℕ
  | [], acc => some acc
  | c :: cs, acc =>
    if c.isDigit then digitsToNat? cs (10 * acc + (c.toNat - 48)) else none

/-- Python int(s) on the strings the map loader meets: an optional minus
sign followed by at least one decimal digit.  (Python also tolerates
surrounding whitespace, a plus sign and underscores; no theorem below
depends on those inputs.) -/
def pyToInt? (s : String) : Option ℤ :=
  match s.toList with
  | [] => none
  | '-' :: rest =>
    (match rest with
     | [] => none
     | _ => (digitsToNat? rest 0).map (fun n => -(n : ℤ)))
  | l => (digitsToNat? l 0).map (fun n => (n : ℤ))

/-- One row of maps/<plant>/modbus_map.csv as csv.DictReader yields it:
all eight columns as strings. -/
structure Row where
  name : String
  type : String
  table : String
  address : String
  width : String
  units : String
  desc : String
  role : String
deriving DecidableEq, Repr

/-- The per-tag record built by ModbusBridge._load_modbus_map. -/
structure TagMapping where
  type : String
  table : String
  address : ℤ
  width : ℤ
  units : String
  desc : String
  role : String
deriving DecidableEq, Repr

/-- Failures of ModbusBridge.__init__: FileNotFoundError from a missing
map file, ValueError from int() on a malformed address/width column, and
sys.exit from role validation. -/
inductive InitErr where
  | fileNotFound
  | valueError
  | exitCode (code : ℕ)
deriving DecidableEq, Repr

/-- Python dict insert: overwrite the value of an existing key in place,
else append. -/
def upsert (l : List (String × TagMapping)) (k : String) (v : TagMapping) :
    List (String × TagMapping) :=
  match l with
  | [] => [(k, v)]
  | (k2, v2) :: t => if k2 = k then (k, v) :: t else (k2, v2) :: upsert t k v

/-- The row loop of ModbusBridge._load_modbus_map: parse address and
width (width defaults to 1 on an empty column) and store the mapping
under the tag name. -/
def loadRows : List Row → List (String × TagMapping) →
    Except InitErr (List (String × TagMapping))
  | [], acc => .ok acc
  | r :: rs, acc =>
    match pyToInt? r.address with
    | none => .error .valueError
    | some addr =>
      match (if r.width = "" then some 1 else pyToInt? r.width) with
      | none => .error .valueError
      | some w =>
        loadRows rs (upsert acc r.name
          { type := r.type, table := r.table, address := addr, width := w,
            units := r.units, desc := r.desc, role := r.role })

/-- ModbusBridge._load_modbus_map: a missing file raises
FileNotFoundError, otherwise the rows are loaded in order.  Note that no
duplicate-address check of any kind is performed here. -/
def loadModbusMap : Option (List Row) → Except InitErr (List (String × TagMapping))
  | none => .error .fileNotFound
  | some rows => loadRows rows []

/-- ModbusBridge._validate_tag_role: the name prefixes SENSOR_, ACT_ and
CMD_ force the roles Sensor, Actuator and Command. -/
def validateTagRole (tag_name : String) (m : TagMapping) : Bool :=
  if strStartsWith tag_name "SENSOR_" && m.role != "Sensor" then false
  else if strStartsWith tag_name "ACT_" && m.role != "Actuator" then false
  else if strStartsWith tag_name "CMD_" && m.role != "Command" then false
  else true

/-- ModbusBridge._validate_mappings.  When no IR data was loaded the
function returns after a warning, skipping every check including role
validation; with IR data the cross-checks only warn, and any role
violation calls sys.exit(1).  The IR tag-name set only feeds warnings,
so it is reduced to an opaque name list here. -/
def validateMappings (mappings : List (String × TagMapping))
    (ir_data : Option (List String)) : Except InitErr Unit :=
  match ir_data with
  | none => .ok ()
  | some _ =>
    if mappings.all (fun p => validateTagRole p.1 p.2) then .ok ()
    else .error (.exitCode 1)

/-- The four pymodbus data blocks of the server context, as the
addressable register maps the bridge reads and writes. -/
structure Store where
  di : ℤ → ℤ
  co : ℤ → ℤ
  hr : ℤ → ℤ
  ir : ℤ → ℤ

/-- ModbusBridge._create_modbus_context: all four blocks zero-filled. -/
def createModbusContext : Store :=
  { di := fun _ => 0, co := fun _ => 0, hr := fun _ => 0, ir := fun _ => 0 }

/-- The bridge object: the validated tag mappings plus the Modbus
context. -/
structure MBridge where
  tag_mappings : List (String × TagMapping)
  context : Store

/-- ModbusBridge.__init__: load the map, validate the mappings, and only
then create the Modbus context (the Process State Store).  Any failure
before that leaves no bridge and no store. -/
def bridgeInit (map_file : Option (List Row)) (ir_data : Option (List String)) :
    Except InitErr MBridge :=
  match loadModbusMap map_file with
  | .error e => .error e
  | .ok m =>
    match validateMappings m ir_data with
    | .error e => .error e
    | .ok _ => .ok { tag_mappings := m, context := createModbusContext }

/-- Lookup of a tag name in self.tag_mappings. -/
def lookupTag (l : List (String × TagMapping)) (tag_name : String) : Option TagMapping :=
  (l.find? (fun p => p.1 == tag_name)).map (fun p => p.2)

/-- Runtime access failures of the bridge accessors, all raised as
ValueError in the Python code. -/
inductive AccessErr where
  | unknownTag (name : String)
  | unknownTable (table : String)
  | cannotWriteTable (table : String)
deriving DecidableEq, Repr

/-- Point update of one register map cell. -/
def setValuesAt (f : ℤ → ℤ) (a : ℤ) (v : ℤ) : ℤ → ℤ :=
  fun x => if x = a then v else f x

/-- ModbusBridge.get_tag_value: unknown tags and unknown tables raise
ValueError; otherwise the cell at the tag's table/address is returned. -/
def getTagValue (b : MBridge) (tag_name : String) : Except AccessErr ℤ :=
  match lookupTag b.tag_mappings tag_name with
  | none => .error (.unknownTag tag_name)
  | some m =>
    if m.table = "DI" then .ok (b.context.di m.address)
    else if m.table = "COIL" then .ok (b.context.co m.address)
    else if m.table = "HR" then .ok (b.context.hr m.address)
    else if m.table = "IR" then .ok (b.context.ir m.address)
    else .error (.unknownTable m.table)

/-- ModbusBridge.set_tag_value: only COIL and HR cells are writable; any
other table raises ValueError before anything is mutated, so on an error
the store is unchanged. -/
def setTagValue (b : MBridge) (tag_name : String) (value : ℤ) :
    Except AccessErr MBridge :=
  match lookupTag b.tag_mappings tag_name with
  | none => .error (.unknownTag tag_name)
  | some m =>
    if m.table = "COIL" then
      .ok { b with context := { b.context with co := setValuesAt b.context.co m.address value } }
    else if m.table = "HR" then
      .ok { b with context := { b.context with hr := setValuesAt b.context.hr m.address value } }
    else .error (.cannotWriteTable m.table)

/-- One iteration of the ModbusBridge.update_sensors loop: unknown tag
names and tables other than DI and IR are silently skipped. -/
def updateSensorsOne (b : MBridge) (tag_name : String) (value : ℤ) : MBridge :=
  match lookupTag b.tag_mappings tag_name with
  | none => b
  | some m =>
    if m.table = "DI" then
      { b with context := { b.context with di := setValuesAt b.context.di m.address value } }
    else if m.table = "IR" then
      { b with context := { b.context with ir := setValuesAt b.context.ir m.address value } }
    else b

/-- ModbusBridge.update_sensors: fold the loop body over the given
sensor-value pairs; the function has no failure path at all. -/
def updateSensors (b : MBridge) (sensor_values : List (String × ℤ)) : MBridge :=
  sensor_values.foldl (fun acc p => updateSensorsOne acc p.1 p.2) b

/-- True when an Except is a success. -/
def exceptOk {ε α : Type} : Except ε α → Bool
  | .ok _ => true
  | .error _ => false

/-! Concrete fixtures used by counterexamples and witnesses. -/

/-- A discrete-input sensor tag mapping at DI address 0. -/
def diMapLS : TagMapping :=
  { type := "BOOL", table := "DI", address := 0, width := 1, units := "",
    desc := "", role := "Sensor" }

/-- A coil actuator tag mapping at COIL address 0. -/
def coilMapMotor : TagMapping :=
  { type := "BOOL", table := "COIL", address := 0, width := 1, units := "",
    desc := "", role := "Actuator" }

/-- An input-register sensor tag mapping at IR address 1. -/
def irMapTank : TagMapping :=
  { type := "INT", table := "IR", address := 1, width := 1, units := "",
    desc := "", role := "Sensor" }

/-- A holding-register command tag mapping at HR address 2. -/
def hrMapSpeed : TagMapping :=
  { type := "INT", table := "HR", address := 2, width := 1, units := "",
    desc := "", role := "Command" }

/-- A small loaded tag map with one tag per table. -/
def sampleMappings : List (String × TagMapping) :=
  [("SENSOR_LIMIT_SWITCH", diMapLS), ("ACT_MOTOR", coilMapMotor),
   ("SENSOR_TANK_LEVEL", irMapTank), ("CMD_SPEED", hrMapSpeed)]

/-- A bridge over the sample map with a fresh context. -/
def sampleBridge : MBridge :=
  { tag_mappings := sampleMappings, context := createModbusContext }

/-- A map row whose SENSOR_ name carries the role Actuator, violating
the role policy. -/
def badRoleRow : Row :=
  { name := "SENSOR_X", type := "BOOL", table := "DI", address := "0",
    width := "", units := "", desc := "", role := "Actuator" }

/-- The tag mapping _load_modbus_map builds from badRoleRow. -/
def badRoleMapping : TagMapping :=
  { type := "BOOL", table := "DI", address := 0, width := 1, units := "",
    desc := "", role := "Actuator" }

/-- Two rows with distinct names mapping to the same (table, address)
pair DI:7. -/
def dupRowA : Row :=
  { name := "SENSOR_A", type := "BOOL", table := "DI", address := "7",
    width := "1", units := "", desc := "", role := "Sensor" }

/-- Second row of the DI:7 collision. -/
def dupRowB : Row :=
  { name := "SENSOR_B", type := "BOOL", table := "DI", address := "7",
    width := "1", units := "", desc := "", role := "Sensor" }

/-- C4 counterexample: ModbusBridge._load_modbus_map performs no
duplicate-address check, so a map in which two differently named tags
share the (table, address) pair DI:7 loads successfully instead of
failing with a DuplicateAddressError. -/
theorem duplicate_addresses_load_ok :
    dupRowA.table = dupRowB.table ∧ dupRowA.address = dupRowB.address ∧
    dupRowA.name ≠ dupRowB.name ∧
    exceptOk (loadModbusMap (some [dupRowA, dupRowB])) = true :=
  ⟨rfl, rfl, by decide, rfl⟩

/-- C5 counterexample: with the IR file absent (_load_ir_data returned
None), _validate_mappings returns before the role loop, so a map whose
SENSOR_ tag has role Actuator loads without any fatal error and the
Modbus context (the Store) is created. -/
theorem role_violation_skipped_without_ir :
    strStartsWith badRoleRow.name "SENSOR_" = true ∧ badRoleRow.role ≠ "Sensor" ∧
    exceptOk (bridgeInit (some [badRoleRow]) none) = true :=
  ⟨by decide, by decide, rfl⟩

/-- C5 amended: provided the CrossPLC IR reference data is present, a
loaded map containing any tag whose declared role fails the prefix
policy makes ModbusBridge.__init__ exit with status 1 during
_validate_mappings, before _create_modbus_context runs, so no Store is
created. -/
theorem role_violation_fails_fast (rows : List Row) (ir : List String)
    (m : List (String × TagMapping))
    (hload : loadModbusMap (some rows) = .ok m)
    (hbad : m.all (fun p => validateTagRole p.1 p.2) = false) :
    bridgeInit (some rows) (some ir) = .error (.exitCode 1) := by
  unfold bridgeInit
  rw [hload]
  simp [validateMappings, hbad]

/-- C5 witness: the single-row bad map with IR data present is rejected
with exit code 1. -/
theorem role_violation_fails_fast_witness :
    bridgeInit (some [badRoleRow]) (some ["SENSOR_X"]) = .error (.exitCode 1) :=
  role_violation_fails_fast [badRoleRow] ["SENSOR_X"] [("SENSOR_X", badRoleMapping)]
    rfl rfl

/-- C6 counterexample: update_sensors with an unregistered tag name is a
silent no-op on the sample bridge, not a raised error, contradicting the
claim that every accessor raises on unknown tags. -/
theorem update_sensors_swallows_unknown :
    updateSensors sampleBridge [("NOT_A_TAG", 5)] = sampleBridge := rfl

/-- C6 amended: get_tag_value and set_tag_value raise on unknown tag
names (and set_tag_value on read-only tables, see the C7 theorem), but
update_sensors silently skips unknown tag names: it has no failure
path. -/
theorem runtime_access_errors (b : MBridge) (t : String) (v : ℤ)
    (h : lookupTag b.tag_mappings t = none) :
    getTagValue b t = .error (.unknownTag t) ∧
    setTagValue b t v = .error (.unknownTag t) ∧
    updateSensors b [(t, v)] = b := by
  refine ⟨?_, ?_, ?_⟩
  · simp [getTagValue, h]
  · simp [setTagValue, h]
  · simp [updateSensors, updateSensorsOne, h]

/-- C6 witness: the unknown tag NOT_A_TAG on the sample bridge. -/
theorem runtime_access_errors_witness :
    getTagValue sampleBridge "NOT_A_TAG" = .error (.unknownTag "NOT_A_TAG") ∧
    setTagValue sampleBridge "NOT_A_TAG" 5 = .error (.unknownTag "NOT_A_TAG") ∧
    updateSensors sampleBridge [("NOT_A_TAG", 5)] = sampleBridge :=
  runtime_access_errors sampleBridge "NOT_A_TAG" 5 rfl

/-- C7: set_tag_value on a registered tag of the DI or IR table fails
with the read-only-table ValueError (raised before any mutation, so the
store is untouched), and a successful set_tag_value can only happen for
a COIL or HR tag. -/
theorem write_readonly_fails (b : MBridge) (t : String) (v : ℤ) (m : TagMapping)
    (h : lookupTag b.tag_mappings t = some m) :
    ((m.table = "DI" ∨ m.table = "IR") →
      setTagValue b t v = .error (.cannotWriteTable m.table)) ∧
    (∀ b2, setTagValue b t v = .ok b2 → m.table = "COIL" ∨ m.table = "HR") := by
  constructor
  · intro hro
    rcases hro with hdi | hir
    · simp [setTagValue, h, hdi]
    · simp [setTagValue, h, hir]
  · intro b2 hok
    by_cases hco : m.table = "COIL"
    · exact Or.inl hco
    · by_cases hhr : m.table = "HR"
      · exact Or.inr hhr
      · simp [setTagValue, h, hco, hhr] at hok

/-- C7 witness: writing the DI tag SENSOR_LIMIT_SWITCH on the sample
bridge fails with the read-only-table error. -/
theorem write_readonly_fails_witness :
    setTagValue sampleBridge "SENSOR_LIMIT_SWITCH" 1 = .error (.cannotWriteTable "DI") :=
  (write_readonly_fails sampleBridge "SENSOR_LIMIT_SWITCH" 1 diMapLS rfl).1 (Or.inl rfl)

/-- C8: for a registered DI tag, update_sensors succeeds (it is total)
and a subsequent get_tag_value returns the written value, while
set_tag_value on the very same tag fails with the read-only-table
error. -/
theorem sensor_write_bypass (b : MBridge) (t : String) (v : ℤ) (m : TagMapping)
    (h : lookupTag b.tag_mappings t = some m) (hdi : m.table = "DI") :
    getTagValue (updateSensors b [(t, v)]) t = .ok v ∧
    setTagValue b t v = .error (.cannotWriteTable "DI") := by
  constructor
  · simp [updateSensors, updateSensorsOne, h, hdi, getTagValue, setValuesAt]
  · simp [setTagValue, h, hdi]

/-- C8 witness: the DI tag SENSOR_LIMIT_SWITCH on the sample bridge. -/
theorem sensor_write_bypass_witness :
    getTagValue (updateSensors sampleBridge [("SENSOR_LIMIT_SWITCH", 1)])
      "SENSOR_LIMIT_SWITCH" = .ok 1 ∧
    setTagValue sampleBridge "SENSOR_LIMIT_SWITCH" 1 = .error (.cannotWriteTable "DI") :=
  sensor_write_bypass sampleBridge "SENSOR_LIMIT_SWITCH" 1 diMapLS rfl rfl

/-- C9: for a registered COIL or HR tag, a successful set_tag_value
followed by get_tag_value returns the written value. -/
theorem write_read_roundtrip (b : MBridge) (t : String) (v : ℤ) (m : TagMapping)
    (b2 : MBridge) (h : lookupTag b.tag_mappings t = some m)
    (ht : m.table = "COIL" ∨ m.table = "HR")
    (hw : setTagValue b t v = .ok b2) :
    getTagValue b2 t = .ok v := by
  rcases ht with hco | hhr
  · have hb2 : b2 = { b with context := { b.context with
        co := setValuesAt b.context.co m.address v } } := by
      have h2 := hw
      simp [setTagValue, h, hco] at h2
      exact h2.symm
    subst hb2
    simp [getTagValue, h, hco, setValuesAt]
  · have hb2 : b2 = { b with context := { b.context with
        hr := setValuesAt b.context.hr m.address v } } := by
      have h2 := hw
      simp [setTagValue, h, hhr] at h2
      exact h2.symm
    subst hb2
    simp [getTagValue, h, hhr, setValuesAt]

/-- C9 witness: writing the COIL tag ACT_MOTOR on the sample bridge and
reading it back yields the written value. -/
theorem write_read_roundtrip_witness :
    getTagValue { sampleBridge with context := { sampleBridge.context with
      co := setValuesAt sampleBridge.context.co coilMapMotor.address 1 } } "ACT_MOTOR"
      = .ok 1 :=
  write_read_roundtrip sampleBridge "ACT_MOTOR" 1 coilMapMotor
    { sampleBridge with context := { sampleBridge.context with
      co := setValuesAt sampleBridge.context.co coilMapMotor.address 1 } }
    rfl (Or.inl rfl) rfl

/-- True when some entry of the sensor-value list resolves, through the
given tag mappings, to the given table at the given address. -/
def sensorWriteHits (maps : List (String × TagMapping))
    (sensor_values : List (String × ℤ)) (table : String) (a : ℤ) : Bool :=
  sensor_values.any fun p =>
    match lookupTag maps p.1 with
    | some m => m.table == table && m.address == a
    | none => false

theorem updateSensorsOne_frame (b : MBridge) (t : String) (v : ℤ) :
    (updateSensorsOne b t v).tag_mappings = b.tag_mappings ∧
    (updateSensorsOne b t v).context.co = b.context.co ∧
    (updateSensorsOne b t v).context.hr = b.context.hr := by
  rcases hl : lookupTag b.tag_mappings t with _ | m
  · simp [updateSensorsOne, hl]
  · by_cases hdi : m.table = "DI"
    · simp [updateSensorsOne, hl, hdi]
    · by_cases hir : m.table = "IR"
      · simp [updateSensorsOne, hl, hdi, hir]
      · simp [updateSensorsOne, hl, hdi, hir]

theorem updateSensorsOne_di_frame (b : MBridge) (t : String) (v : ℤ) (a : ℤ)
    (hmiss : sensorWriteHits b.tag_mappings [(t, v)] "DI" a = false) :
    (updateSensorsOne b t v).context.di a = b.context.di a := by
  unfold sensorWriteHits at hmiss
  rcases hl : lookupTag b.tag_mappings t with _ | m
  · simp [updateSensorsOne, hl]
  · simp only [List.any_cons, List.any_nil, hl, Bool.or_false] at hmiss
    by_cases hdi : m.table = "DI"
    · rw [hdi] at hmiss
      simp only [beq_self_eq_true, Bool.true_and] at hmiss
      have hne : ¬ (a = m.address) := by
        intro hEq
        rw [hEq] at hmiss
        simp at hmiss
      simp [updateSensorsOne, hl, hdi, setValuesAt, hne]
    · by_cases hir : m.table = "IR"
      · simp [updateSensorsOne, hl, hdi, hir]
      · simp [updateSensorsOne, hl, hdi, hir]

theorem updateSensorsOne_ir_frame (b : MBridge) (t : String) (v : ℤ) (a : ℤ)
    (hmiss : sensorWriteHits b.tag_mappings [(t, v)] "IR" a = false) :
    (updateSensorsOne b t v).context.ir a = b.context.ir a := by
  unfold sensorWriteHits at hmiss
  rcases hl : lookupTag b.tag_mappings t with _ | m
  · simp [updateSensorsOne, hl]
  · simp only [List.any_cons, List.any_nil, hl, Bool.or_false] at hmiss
    by_cases hdi : m.table = "DI"
    · simp [updateSensorsOne, hl, hdi]
    · by_cases hir : m.table = "IR"
      · rw [hir] at hmiss
        simp only [beq_self_eq_true, Bool.true_and] at hmiss
        have hne : ¬ (a = m.address) := by
          intro hEq
          rw [hEq] at hmiss
          simp at hmiss
        simp [updateSensorsOne, hl, hdi, hir, setValuesAt, hne]
      · simp [updateSensorsOne, hl, hdi, hir]

/-- C10: update_sensors changes no COIL or HR cell and no tag mapping
metadata, and a DI or IR cell only changes when some entry of the map
resolves to that table and address; entries with unknown names or
non-sensor tables are skipped without any effect or error. -/
theorem update_sensors_frame (b : MBridge) (svs : List (String × ℤ)) :
    (updateSensors b svs).tag_mappings = b.tag_mappings ∧
    (updateSensors b svs).context.co = b.context.co ∧
    (updateSensors b svs).context.hr = b.context.hr ∧
    (∀ a, sensorWriteHits b.tag_mappings svs "DI" a = false →
      (updateSensors b svs).context.di a = b.context.di a) ∧
    (∀ a, sensorWriteHits b.tag_mappings svs "IR" a = false →
      (updateSensors b svs).context.ir a = b.context.ir a) := by
  induction svs generalizing b with
  | nil => exact ⟨rfl, rfl, rfl, fun a _ => rfl, fun a _ => rfl⟩
  | cons p rest ih =>
    have hone := updateSensorsOne_frame b p.1 p.2
    have hrun : updateSensors b (p :: rest)
        = updateSensors (updateSensorsOne b p.1 p.2) rest := rfl
    have ihb := ih (updateSensorsOne b p.1 p.2)
    have hmapsEq : (updateSensorsOne b p.1 p.2).tag_mappings = b.tag_mappings := hone.1
    refine ⟨?_, ?_, ?_, ?_, ?_⟩
    · rw [hrun, ihb.1, hmapsEq]
    · rw [hrun, ihb.2.1, hone.2.1]
    · rw [hrun, ihb.2.2.1, hone.2.2]
    · intro a hmiss
      simp only [sensorWriteHits, List.any_cons] at hmiss
      have hsplit := Bool.or_eq_false_iff.mp hmiss
      have h1 : sensorWriteHits b.tag_mappings [(p.1, p.2)] "DI" a = false := by
        simp only [sensorWriteHits, List.any_cons, List.any_nil, Bool.or_false]
        exact hsplit.1
      have h2 : sensorWriteHits b.tag_mappings rest "DI" a = false := by
        simp only [sensorWriteHits]
        exact hsplit.2
      rw [hrun, ihb.2.2.2.1 a (by rw [hmapsEq]; exact h2),
        updateSensorsOne_di_frame b p.1 p.2 a h1]
    · intro a hmiss
      simp only [sensorWriteHits, List.any_cons] at hmiss
      have hsplit := Bool.or_eq_false_iff.mp hmiss
      have h1 : sensorWriteHits b.tag_mappings [(p.1, p.2)] "IR" a = false := by
        simp only [sensorWriteHits, List.any_cons, List.any_nil, Bool.or_false]
        exact hsplit.1
      have h2 : sensorWriteHits b.tag_mappings rest "IR" a = false := by
        simp only [sensorWriteHits]
        exact hsplit.2
      rw [hrun, ihb.2.2.2.2 a (by rw [hmapsEq]; exact h2),
        updateSensorsOne_ir_frame b p.1 p.2 a h1]

/-- C10 witness: on the sample bridge, writing the DI sensor at address 0
leaves the coil table and the DI cell at address 5 unchanged. -/
theorem update_sensors_frame_witness :
    (updateSensors sampleBridge [("SENSOR_LIMIT_SWITCH", 1)]).context.co
      = sampleBridge.context.co ∧
    (updateSensors sampleBridge [("SENSOR_LIMIT_SWITCH", 1)]).context.di 5
      = sampleBridge.context.di 5 :=
  ⟨(update_sensors_frame sampleBridge [("SENSOR_LIMIT_SWITCH", 1)]).2.1,
   (update_sensors_frame sampleBridge [("SENSOR_LIMIT_SWITCH", 1)]).2.2.2.1 5 (by decide)⟩

/-! Offline map validator, from src/tools/validate_map.py.  The policy it
reads from policy/tags.yaml is configuration data, not code, so
validate_modbus_map is parametrized by the policy record; the error and
warning message strings become constructors carrying the same data.  Rows
arrive as typed records, so the header/required-columns check of the
Python code is vacuous here. -/

/-- The contents of policy/tags.yaml as validate_map.py consumes them:
prefixes (the dict values), and the pattern-keyed roles, type_rules and
modbus_tables dicts in iteration order. -/
structure TagPolicy where
  prefixes : List String
  roles : List (String × String)
  typeRules : List (String × List String)
  modbusTables : List (String × String)
deriving DecidableEq, Repr

/-- The error and warning messages of validate_modbus_map, by content. -/
inductive VError where
  | missingName (i : ℕ)
  | badNaming (i : ℕ) (name : String)
  | roleMismatch (i : ℕ) (name role expected : String)
  | typeMismatch (i : ℕ) (name ty : String)
  | dupAddress (i : ℕ) (key : String)
  | badAddrFormat (i : ℕ) (address : String)
  | tableMismatch (i : ℕ) (name table expected : String)
deriving DecidableEq, Repr

/-- The loop state of validate_modbus_map: the errors and warnings lists
and the addresses dict (modelled as the assoc list of key/name pairs in
insertion order). -/
structure VState where
  errors : List VError
  warnings : List VError
  addresses : List (String × String)
deriving DecidableEq, Repr

/-- The Python f-string address key table:address. -/
def rowAddrKey (r : Row) : String := r.table ++ ":" ++ r.address

/-- The pattern scan the validator runs over each policy dict: the first
pattern that ends in * and whose stem starts the tag name. -/
def findPolicyMatch {α : Type} (l : List (String × α)) (tag_name : String) : Option α :=
  (l.find? (fun pr =>
    strEndsWith pr.1 "*" && strStartsWith tag_name (strDropRight pr.1 1))).map
    (fun pr => pr.2)

/-- One hexadecimal digit of Python int(s, 16). -/
def hexDigitVal? (c : Char) : Option ℕ :=
  if c.isDigit then some (c.toNat - 48)
  else if 'a' ≤ c ∧ c ≤ 'f' then some (c.toNat - 87)
  else if 'A' ≤ c ∧ c ≤ 'F' then some (c.toNat - 55)
  else none

/-- Hexadecimal digit accumulator. -/
def hexDigitsVal? : List Char → ℕ → Option ℕ
  | [], acc => some acc
  | c :: cs, acc =>
    match hexDigitVal? c with
    | some d => hexDigitsVal? cs (16 * acc + d)
    | none => none

/-- Python int(s, 16) on a string that starts with 0x: the 0x is
consumed, at least one hex digit must follow. -/
def pyParseHex (s : String) : Option ℤ :=
  match s.toList with
  | '0' :: 'x' :: rest =>
    (match rest with
     | [] => none
     | _ => (hexDigitsVal? rest 0).map (fun n => (n : ℤ)))
  | _ => none

/-- The address-format check of validate_modbus_map: int(a, 16) when the
string starts with 0x, plain int(a) otherwise. -/
def pyParseAddress (s : String) : Option ℤ :=
  if strStartsWith s "0x" then pyParseHex s else pyToInt? s

/-- The body of the per-row loop of validate_modbus_map, in the order the
Python code runs its checks: missing name (continue), naming policy,
role consistency, type consistency, table consistency (warning only),
address uniqueness, address format. -/
def validateRow (p : TagPolicy) (i : ℕ) (r : Row) (st : VState) : VState :=
  if r.name = "" then
    { st with errors := st.errors ++ [VError.missingName i] }
  else
    let namingErrs : List VError :=
      if p.prefixes.any (fun q => strStartsWith r.name q) then []
      else [VError.badNaming i r.name]
    let roleErrs : List VError :=
      match findPolicyMatch p.roles r.name with
      | some expected =>
        if r.role = expected then [] else [VError.roleMismatch i r.name r.role expected]
      | none => []
    let typeErrs : List VError :=
      match findPolicyMatch p.typeRules r.name with
      | some tys =>
        if tys.isEmpty then []
        else if tys.contains r.type then [] else [VError.typeMismatch i r.name r.type]
      | none => []
    let tableWarns : List VError :=
      match findPolicyMatch p.modbusTables r.name with
      | some tbl =>
        if r.table = tbl then [] else [VError.tableMismatch i r.name r.table tbl]
      | none => []
    let dupErrs : List VError :=
      if rowAddrKey r ∈ st.addresses.map Prod.fst then [VError.dupAddress i (rowAddrKey r)]
      else []
    let addrs2 : List (String × String) :=
      if rowAddrKey r ∈ st.addresses.map Prod.fst then st.addresses
      else st.addresses ++ [(rowAddrKey r, r.name)]
    let fmtErrs : List VError :=
      if (pyParseAddress r.address).isSome then [] else [VError.badAddrFormat i r.address]
    { errors := st.errors ++ (namingErrs ++ roleErrs ++ typeErrs ++ dupErrs ++ fmtErrs),
      warnings := st.warnings ++ tableWarns,
      addresses := addrs2 }

/-- The enumerate(tags, 1) loop of validate_modbus_map. -/
def processRows (p : TagPolicy) : ℕ → List Row → VState → VState
  | _, [], st => st
  | i, r :: rs, st => processRows p (i + 1) rs (validateRow p i r st)

/-- The result record of validate_modbus_map: tag count, errors,
warnings, and valid = (no errors). -/
structure VResult where
  total_tags : ℕ
  errors : List VError
  warnings : List VError
  valid : Bool
deriving DecidableEq, Repr

/-- validate_modbus_map over the parsed rows of one map file. -/
def validate_modbus_map (p : TagPolicy) (rows : List Row) : VResult :=
  let st := processRows p 1 rows { errors := [], warnings := [], addresses := [] }
  { total_tags := rows.length, errors := st.errors, warnings := st.warnings,
    valid := st.errors.isEmpty }

theorem validateRow_errors_extend (p : TagPolicy) (i : ℕ) (r : Row) (st : VState) :
    ∃ l, (validateRow p i r st).errors = st.errors ++ l := by
  unfold validateRow
  by_cases h : r.name = ""
  · rw [if_pos h]
    exact ⟨_, rfl⟩
  · rw [if_neg h]
    exact ⟨_, rfl⟩

theorem processRows_errors_extend (p : TagPolicy) (rows : List Row) :
    ∀ (i : ℕ) (st : VState), ∃ l, (processRows p i rows st).errors = st.errors ++ l := by
  induction rows with
  | nil => intro i st; exact ⟨[], (List.append_nil _).symm⟩
  | cons r rs ih =>
    intro i st
    obtain ⟨l1, h1⟩ := validateRow_errors_extend p i r st
    obtain ⟨l2, h2⟩ := ih (i + 1) (validateRow p i r st)
    refine ⟨l1 ++ l2, ?_⟩
    show (processRows p (i + 1) rs (validateRow p i r st)).errors = st.errors ++ (l1 ++ l2)
    rw [h2, h1, List.append_assoc]

theorem processRows_errors_ne (p : TagPolicy) (rows : List Row) (i : ℕ) (st : VState)
    (h : st.errors ≠ []) : (processRows p i rows st).errors ≠ [] := by
  obtain ⟨l, hl⟩ := processRows_errors_extend p rows i st
  rw [hl]
  simp [h]

theorem validateRow_addr_mono (p : TagPolicy) (i : ℕ) (r : Row) (st : VState) (k : String)
    (h : k ∈ st.addresses.map Prod.fst) :
    k ∈ (validateRow p i r st).addresses.map Prod.fst := by
  by_cases hn : r.name = ""
  · simp only [validateRow, if_pos hn]
    exact h
  · by_cases hd : rowAddrKey r ∈ st.addresses.map Prod.fst
    · simp only [validateRow, if_neg hn, if_pos hd]
      exact h
    · simp only [validateRow, if_neg hn, if_neg hd, List.map_append, List.mem_append]
      exact Or.inl h

theorem validateRow_key_mem (p : TagPolicy) (i : ℕ) (r : Row) (st : VState)
    (hn : r.name ≠ "") :
    rowAddrKey r ∈ (validateRow p i r st).addresses.map Prod.fst := by
  by_cases hd : rowAddrKey r ∈ st.addresses.map Prod.fst
  · simp only [validateRow, if_neg hn, if_pos hd]
    exact hd
  · simp only [validateRow, if_neg hn, if_neg hd, List.map_append, List.mem_append]
    exact Or.inr (by simp)

theorem validateRow_dup_error (p : TagPolicy) (i : ℕ) (r : Row) (st : VState)
    (hn : r.name ≠ "") (hd : rowAddrKey r ∈ st.addresses.map Prod.fst) :
    (validateRow p i r st).errors ≠ [] := by
  simp only [validateRow, if_neg hn, if_pos hd]
  simp

theorem processRows_mem_dup (p : TagPolicy) (rows : List Row) :
    ∀ (i : ℕ) (st : VState) (r2 : Row), r2 ∈ rows → r2.name ≠ "" →
      rowAddrKey r2 ∈ st.addresses.map Prod.fst →
      (processRows p i rows st).errors ≠ [] := by
  induction rows with
  | nil => intro i st r2 hmem; cases hmem
  | cons r rs ih =>
    intro i st r2 hmem hn hk
    rcases List.mem_cons.mp hmem with rfl | hmem2
    · have hne := validateRow_dup_error p i r2 st hn hk
      exact processRows_errors_ne p rs (i + 1) _ hne
    · have hk2 : rowAddrKey r2 ∈ (validateRow p i r st).addresses.map Prod.fst :=
        validateRow_addr_mono p i r st _ hk
      exact ih (i + 1) (validateRow p i r st) r2 hmem2 hn hk2

theorem processRows_pairwise_ok (p : TagPolicy) (rows : List Row) :
    ∀ (i : ℕ) (st : VState), (processRows p i rows st).errors = [] →
      rows.Pairwise
        (fun r1 r2 => r1.name ≠ "" → r2.name ≠ "" → rowAddrKey r1 ≠ rowAddrKey r2) := by
  induction rows with
  | nil => intro i st _; exact List.Pairwise.nil
  | cons r rs ih =>
    intro i st h
    have h2 : (processRows p (i + 1) rs (validateRow p i r st)).errors = [] := h
    refine List.Pairwise.cons ?_ (ih (i + 1) (validateRow p i r st) h2)
    intro r2 hmem hn1 hn2 hkEq
    have hk : rowAddrKey r2 ∈ (validateRow p i r st).addresses.map Prod.fst := by
      rw [← hkEq]
      exact validateRow_key_mem p i r st hn1
    exact absurd h2 (processRows_mem_dup p rs (i + 1) (validateRow p i r st) r2 hmem hn2 hk)

/-- C4 amended: the runtime loader performs no duplicate check (see the
counterexample), but the offline validator does: any map that
validate_modbus_map reports valid has pairwise distinct table:address
keys among its named rows, so a map with a (table, address) collision is
reported invalid rather than valid. -/
theorem validate_valid_addresses_unique (p : TagPolicy) (rows : List Row)
    (h : (validate_modbus_map p rows).valid = true) :
    rows.Pairwise
      (fun r1 r2 => r1.name ≠ "" → r2.name ≠ "" → rowAddrKey r1 ≠ rowAddrKey r2) := by
  unfold validate_modbus_map at h
  simp only [List.isEmpty_iff] at h
  exact processRows_pairwise_ok p rows 1 _ h

/-- The policy of policy/tags.yaml as the reference deployment ships it:
SENSOR_/ACT_/CMD_ prefixes with their roles, types and suggested
tables. -/
def samplePolicy : TagPolicy :=
  { prefixes := ["SENSOR_", "ACT_", "CMD_"],
    roles := [("SENSOR_*", "Sensor"), ("ACT_*", "Actuator"), ("CMD_*", "Command")],
    typeRules := [("SENSOR_*", ["BOOL", "INT"]), ("ACT_*", ["BOOL"]), ("CMD_*", ["INT"])],
    modbusTables := [("SENSOR_*", "DI"), ("ACT_*", "COIL"), ("CMD_*", "HR")] }

/-- A collision-free variant of dupRowB at DI:8. -/
def okRowB : Row := { dupRowB with address := "8" }

/-- C4 witness: a concrete two-row map the validator accepts, whose rows
therefore carry distinct table:address keys. -/
theorem validate_valid_addresses_unique_witness :
    List.Pairwise
      (fun r1 r2 => r1.name ≠ "" → r2.name ≠ "" → rowAddrKey r1 ≠ rowAddrKey r2)
      [dupRowA, okRowB] :=
  validate_valid_addresses_unique samplePolicy [dupRowA, okRowB] (by decide)

end VirtuaPlant
